import Mathlib

/-!
Verification development for the dhan-trading market-depth subsystem.

The definitions below are a shallow embedding of the Python sources:
  - src/dhan_trader/api/websocket_depth.py  (depth frame decoding, bid/ask assembly)
  - src/dhan_trader/api/websocket.py        (ticker/quote/full frame decoding)
  - src/dhan_trader/market_data/depth_manager.py (subscription registry, dispatch)
  - src/dhan_trader/analysis/depth_analyzer.py   (microstructure metrics, signals)

Bytes are lists of naturals below 256; timestamps and prices are exact
rationals (an IEEE-754 double is decoded to its exact rational value);
Python exceptions are modelled with Except.
-/

set_option exponentiation.threshold 2000
set_option maxRecDepth 8000

namespace DhanTrader

/-- Big-endian interpretation of a byte list. -/
def beNat (bs : List Nat) : Nat :=
  bs.foldl (fun a b => a * 256 + b) 0

/-- The slice payload[lo:hi] of Python: never fails, may be short. -/
def pySlice (l : List Nat) (lo hi : Nat) : List Nat :=
  (l.drop lo).take (hi - lo)

/-- struct.unpack of a big-endian unsigned field at payload[lo:hi]:
raises (models struct.error) when the slice is shorter than hi - lo. -/
def unpackBE (l : List Nat) (lo hi : Nat) : Except String Nat :=
  if (pySlice l lo hi).length = hi - lo then .ok (beNat (pySlice l lo hi))
  else .error "unpack requires a buffer"

/-- Exact rational value of an IEEE-754 binary64 bit pattern
(infinities and NaN, which no claim exercises, are mapped to 0). -/
def float64OfBits (bits : Nat) : ℚ :=
  let sign : Nat := bits / 2 ^ 63
  let exp : Nat := (bits / 2 ^ 52) % 2 ^ 11
  let mant : Nat := bits % 2 ^ 52
  if exp = 0 then
    (if sign = 1 then -1 else 1) * (mant : ℚ) / ((2 ^ 1074 : Nat) : ℚ)
  else if exp = 2047 then 0
  else
    (if sign = 1 then -1 else 1) * ((2 ^ 52 + mant : Nat) : ℚ) / ((2 ^ (1075 - exp) : Nat) : ℚ)

/-- Exact rational value of an IEEE-754 binary32 bit pattern
(infinities and NaN mapped to 0). -/
def float32OfBits (bits : Nat) : ℚ :=
  let sign : Nat := bits / 2 ^ 31
  let exp : Nat := (bits / 2 ^ 23) % 2 ^ 8
  let mant : Nat := bits % 2 ^ 23
  if exp = 0 then
    (if sign = 1 then -1 else 1) * (mant : ℚ) / ((2 ^ 149 : Nat) : ℚ)
  else if exp = 255 then 0
  else
    (if sign = 1 then -1 else 1) * ((2 ^ 23 + mant : Nat) : ℚ) / ((2 ^ (150 - exp) : Nat) : ℚ)

/-- struct.unpack of a big-endian float64 at payload[lo:lo+8] (as Except). -/
def unpackF64 (l : List Nat) (lo : Nat) : Except String ℚ :=
  (unpackBE l lo (lo + 8)).map float64OfBits

/-- struct.unpack of a big-endian float32 at payload[lo:lo+4] (as Except). -/
def unpackF32 (l : List Nat) (lo : Nat) : Except String ℚ :=
  (unpackBE l lo (lo + 4)).map float32OfBits

/-! ## Data model (api/models.py) -/

/-- models.MarketDepthLevel: one price level of one book side. -/
structure MarketDepthLevel where
  price : ℚ
  quantity : Nat
  orders : Nat
  deriving Repr, DecidableEq, Inhabited

/-- models.MarketDepth20Level: one decoded side (bid or ask) of the book. -/
structure MarketDepth20Level where
  levels : List MarketDepthLevel
  side : String
  security_id : String
  exchange_segment : String
  timestamp : ℚ
  deriving Repr, DecidableEq, Inhabited

/-- models.MarketDepth20Response: a combined bid/ask depth snapshot. -/
structure MarketDepth20Response where
  security_id : String
  exchange_segment : String
  bid_depth : MarketDepth20Level
  ask_depth : MarketDepth20Level
  timestamp : ℚ
  deriving Repr, DecidableEq, Inhabited

/-! ## Depth frame decoding (api/websocket_depth.py) -/

/-- websocket_depth._get_exchange_segment_name. -/
def get_exchange_segment_name (segment_code : Nat) : String :=
  if segment_code = 1 then "NSE_EQ"
  else if segment_code = 2 then "NSE_FNO"
  else if segment_code = 3 then "NSE_CURR"
  else if segment_code = 4 then "BSE_EQ"
  else if segment_code = 5 then "BSE_FNO"
  else if segment_code = 6 then "BSE_CURR"
  else if segment_code = 7 then "MCX_COMM"
  else if segment_code = 8 then "IDX_I"
  else "UNKNOWN"

/-- One 16-byte depth record at offset 16*i of the payload: price (8-byte
big-endian double), quantity (uint32), orders (uint32). Only evaluated
after the 320-byte guard, so the reads are total here. -/
def readDepthLevel (payload : List Nat) (i : Nat) : MarketDepthLevel :=
  { price := float64OfBits (beNat (pySlice payload (i * 16) (i * 16 + 8)))
    quantity := beNat (pySlice payload (i * 16 + 8) (i * 16 + 12))
    orders := beNat (pySlice payload (i * 16 + 12) (i * 16 + 16)) }

/-- Decoding part of websocket_depth._parse_bid_depth: payloads shorter
than 320 bytes are dropped (None); otherwise exactly 20 levels are read in
wire order. `now` stands for the datetime.now() capture timestamp. -/
def parse_bid_depth (payload : List Nat) (security_id exchange_segment : String)
    (now : ℚ) : Option MarketDepth20Level :=
  if payload.length < 320 then none
  else some
    { levels := (List.range 20).map (readDepthLevel payload)
      side := "BID"
      security_id := security_id
      exchange_segment := exchange_segment
      timestamp := now }

/-- Decoding part of websocket_depth._parse_ask_depth (same shape as the
bid parser, side tag ASK). -/
def parse_ask_depth (payload : List Nat) (security_id exchange_segment : String)
    (now : ℚ) : Option MarketDepth20Level :=
  if payload.length < 320 then none
  else some
    { levels := (List.range 20).map (readDepthLevel payload)
      side := "ASK"
      security_id := security_id
      exchange_segment := exchange_segment
      timestamp := now }

/-! ## Bid/ask assembler (websocket_depth._store_depth_data) -/

/-- Which side of the per-instrument buffer a frame lands in. -/
inductive BufSide where
  | bid
  | ask
  deriving Repr, DecidableEq

/-- One entry of self.depth_buffers: a dict that may hold a bid frame, an
ask frame, and the last-update timestamp (0 stands for the not-yet-set
dict key, which the code never reads before writing). -/
structure BufferEntry where
  bid : Option MarketDepth20Level
  ask : Option MarketDepth20Level
  timestamp : ℚ
  deriving Repr, DecidableEq

/-- self.depth_buffers: security_id keyed association list. -/
abbrev DepthBuffers := List (String × BufferEntry)

/-- Lookup of depth_buffers[security_id]. -/
def findBuf (security_id : String) : DepthBuffers → Option BufferEntry
  | [] => none
  | p :: rest => if p.1 = security_id then some p.2 else findBuf security_id rest

/-- Assignment depth_buffers[security_id] = entry. -/
def setBuf (security_id : String) (entry : BufferEntry) : DepthBuffers → DepthBuffers
  | [] => [(security_id, entry)]
  | p :: rest =>
    if p.1 = security_id then (security_id, entry) :: rest
    else p :: setBuf security_id entry rest

/-- del depth_buffers[security_id]. -/
def eraseBuf (security_id : String) (bufs : DepthBuffers) : DepthBuffers :=
  bufs.filter (fun p => p.1 ≠ security_id)

/-- self.buffer_timeout = 1.0 seconds. -/
def buffer_timeout : ℚ := 1

/-- websocket_depth._store_depth_data: store the frame for its side, set
the buffer timestamp to the current time, and if both sides are now
present and `current_time - buffer.timestamp ≤ buffer_timeout` (the
timestamp was just overwritten with current_time, exactly as in the
source), emit the combined response and clear the instrument's buffer. -/
def store_depth_data (security_id : String) (side : BufSide)
    (depth_data : MarketDepth20Level) (current_time : ℚ) (bufs : DepthBuffers) :
    DepthBuffers × Option MarketDepth20Response :=
  let entry0 := (findBuf security_id bufs).getD ⟨none, none, 0⟩
  let entry :=
    match side with
    | .bid => { entry0 with bid := some depth_data, timestamp := current_time }
    | .ask => { entry0 with ask := some depth_data, timestamp := current_time }
  match entry.bid, entry.ask with
  | some b, some a =>
    if current_time - entry.timestamp ≤ buffer_timeout then
      (eraseBuf security_id bufs,
       some { security_id := security_id
              exchange_segment := depth_data.exchange_segment
              bid_depth := b
              ask_depth := a
              timestamp := current_time })
    else (setBuf security_id entry bufs, none)
  | _, _ => (setBuf security_id entry bufs, none)

/-- The call made by the two side parsers: the buffer key is the frame's
own security_id. -/
def process_side_frame (side : BufSide) (frame : MarketDepth20Level)
    (now : ℚ) (bufs : DepthBuffers) : DepthBuffers × Option MarketDepth20Response :=
  store_depth_data frame.security_id side frame now bufs

/-- Run a sequence of timed side frames through the assembler, collecting
every emitted snapshot. -/
def runAssembler : List (BufSide × MarketDepth20Level × ℚ) → DepthBuffers →
    DepthBuffers × List MarketDepth20Response
  | [], bufs => (bufs, [])
  | (side, frame, t) :: rest, bufs =>
    let step := process_side_frame side frame t bufs
    let tail := runAssembler rest step.1
    (tail.1, step.2.toList ++ tail.2)

/-! ## Ticker/quote/full frame decoding (api/websocket.py) -/

/-- websocket.MarketDataPacket and its subclasses, flattened into one sum. -/
inductive MarketDataPacket where
  | ticker (security_id exchange_segment : String) (ltp : ℚ) (ltt : Nat)
  | quote (security_id exchange_segment : String) (ltp : ℚ) (ltq : Nat) (ltt : Nat)
      (atp : ℚ) (volume : Nat) (total_sell_qty : Nat) (total_buy_qty : Nat)
      (open_price close_price high_price low_price : ℚ)
  | full (q : MarketDataPacket) (oi : Nat)
      (market_depth : List (Nat × Nat × Nat × Nat × ℚ × ℚ))
  deriving Repr, DecidableEq

/-- websocket._parse_ticker_packet: unpacks raise when the payload is
shorter than 8 bytes. -/
def parse_ticker_packet (payload : List Nat) (security_id exchange_segment : String) :
    Except String MarketDataPacket := do
  let ltp ← unpackF32 payload 0
  let ltt ← unpackBE payload 4 8
  pure (.ticker security_id exchange_segment ltp ltt)

/-- websocket._parse_quote_packet: unpacks raise when the payload is
shorter than 42 bytes. -/
def parse_quote_packet (payload : List Nat) (security_id exchange_segment : String) :
    Except String MarketDataPacket := do
  let ltp ← unpackF32 payload 0
  let ltq ← unpackBE payload 4 6
  let ltt ← unpackBE payload 6 10
  let atp ← unpackF32 payload 10
  let volume ← unpackBE payload 14 18
  let total_sell_qty ← unpackBE payload 18 22
  let total_buy_qty ← unpackBE payload 22 26
  let open_price ← unpackF32 payload 26
  let close_price ← unpackF32 payload 30
  let high_price ← unpackF32 payload 34
  let low_price ← unpackF32 payload 38
  pure (.quote security_id exchange_segment ltp ltq ltt atp volume
    total_sell_qty total_buy_qty open_price close_price high_price low_price)

/-- One 20-byte depth record of a full packet, guarded by the source's
length check, hence total. -/
def readFullDepthRecord (payload : List Nat) (i : Nat) : Nat × Nat × Nat × Nat × ℚ × ℚ :=
  let o := 54 + i * 20
  (beNat (pySlice payload o (o + 4)),
   beNat (pySlice payload (o + 4) (o + 8)),
   beNat (pySlice payload (o + 8) (o + 10)),
   beNat (pySlice payload (o + 10) (o + 12)),
   float32OfBits (beNat (pySlice payload (o + 12) (o + 16))),
   float32OfBits (beNat (pySlice payload (o + 16) (o + 20))))

/-- websocket._parse_full_packet: quote fields from payload[:42] (raising
as the quote parser does), then a guarded oi read and up to five guarded
20-byte depth records. -/
def parse_full_packet (payload : List Nat) (security_id exchange_segment : String) :
    Except String MarketDataPacket := do
  let q ← parse_quote_packet (payload.take 42) security_id exchange_segment
  let oi := if 30 < payload.length then beNat (pySlice payload 26 30) else 0
  let market_depth := (List.range 5).filterMap (fun i =>
    if 54 + (i + 1) * 20 ≤ payload.length then some (readFullDepthRecord payload i)
    else none)
  pure (.full q oi market_depth)

/-- websocket._parse_binary_message: messages shorter than the 8-byte
header and unknown response codes yield no packet without error; response
codes 2/4/8 delegate to the ticker/quote/full parsers, whose unpack
errors propagate out of this function (they are caught by the on_message
handler, not here). -/
def parse_binary_message (message : List Nat) :
    Except String (Option MarketDataPacket) :=
  if message.length < 8 then .ok none
  else
    let response_code := message.headD 0
    let security_id := toString (beNat (pySlice message 4 8))
    let exchange_segment := get_exchange_segment_name (message.getD 3 0)
    if response_code = 2 then
      (parse_ticker_packet (message.drop 8) security_id exchange_segment).map some
    else if response_code = 4 then
      (parse_quote_packet (message.drop 8) security_id exchange_segment).map some
    else if response_code = 8 then
      (parse_full_packet (message.drop 8) security_id exchange_segment).map some
    else .ok none

/-- websocket._on_message: the parse runs inside try/except, so an unpack
error is logged and swallowed and no packet is delivered. -/
def on_message_result (message : List Nat) : Option MarketDataPacket :=
  match parse_binary_message message with
  | .ok p => p
  | .error _ => none

/-- True exactly when an Except computation raised. -/
def isError : Except String α → Bool
  | .ok _ => false
  | .error _ => true

/-! ## Depth manager (market_data/depth_manager.py) -/

/-- Association-list lookup keyed by security_id. -/
def findList (key : String) : List (String × α) → Option α
  | [] => none
  | p :: rest => if p.1 = key then some p.2 else findList key rest

/-- Association-list assignment keyed by security_id. -/
def setList (key : String) (v : α) : List (String × α) → List (String × α)
  | [] => [(key, v)]
  | p :: rest => if p.1 = key then (key, v) :: rest else p :: setList key v rest

/-- defaultdict(list)[key].append(cb). -/
def addCallback (key : String) (cb : Nat) : List (String × List Nat) → List (String × List Nat)
  | [] => [(key, [cb])]
  | p :: rest =>
    if p.1 = key then (key, p.2 ++ [cb]) :: rest else p :: addCallback key cb rest

/-- MarketDepthManager state: connection flag, the subscribers registry
(security_id keyed map of callback handles), latest depth data, analysis
cache keys, and the wire-level subscription list sent to the websocket
client. Callbacks are opaque handles (naturals). -/
structure DMState where
  connected : Bool
  subscribers : List (String × List Nat)
  depth_data : List (String × MarketDepth20Response)
  cache_keys : List String
  ws_subs : List (String × String)
  deriving Repr, DecidableEq

/-- self.max_subscriptions = 50. -/
def max_subscriptions : Nat := 50

/-- depth_manager.subscribe_depth: not-connected check, segment
validation, capacity check against the subscribers registry (all before
any mutation), optional callback insertion, already-subscribed
short-circuit, then the wire subscription. -/
def subscribe_depth (st : DMState) (security_id exchange_segment : String)
    (callback : Option Nat) : Except String DMState :=
  if ¬ st.connected then .error "WebSocket not connected"
  else if ¬ (exchange_segment = "NSE_EQ" ∨ exchange_segment = "NSE_FNO") then
    .error "Exchange segment not supported for 20-level depth"
  else if max_subscriptions ≤ st.subscribers.length then
    .error "Maximum 50 subscriptions reached"
  else
    let st1 :=
      match callback with
      | some cb => { st with subscribers := addCallback security_id cb st.subscribers }
      | none => st
    if (findList security_id st1.depth_data).isSome then .ok st1
    else .ok { st1 with ws_subs := st1.ws_subs ++ [(exchange_segment, security_id)] }

/-- The outcome of one subscriber callback invocation: normal return or a
raised exception with its message. -/
abbrev CallbackBehavior := Nat → Except String Unit

/-- The dispatch loop of depth_manager._on_depth_update: each callback is
invoked inside try/except, so a raising callback is recorded in the log
and the loop continues with the remaining callbacks. Returns the
callbacks that were invoked with the update, and the error log. -/
def runDispatchLoop (behav : CallbackBehavior) : List Nat → List Nat × List String
  | [] => ([], [])
  | cb :: rest =>
    let tail := runDispatchLoop behav rest
    match behav cb with
    | .ok _ => (cb :: tail.1, tail.2)
    | .error e => (cb :: tail.1, e :: tail.2)

/-- depth_manager._on_depth_update: store the latest snapshot, drop the
cached analysis for that security, snapshot its callback list under the
lock, then dispatch to every callback outside the lock. -/
def on_depth_update (st : DMState) (behav : CallbackBehavior)
    (depth_response : MarketDepth20Response) : DMState × List Nat × List String :=
  let security_id := depth_response.security_id
  let st1 :=
    { st with
      depth_data := setList security_id depth_response st.depth_data
      cache_keys := st.cache_keys.filter (fun k => k ≠ security_id) }
  let callbacks := (findList security_id st.subscribers).getD []
  (st1, runDispatchLoop behav callbacks)

/-! ## Depth analyzer (analysis/depth_analyzer.py, api/models.py) -/

/-- depth_analyzer.MarketMicrostructure. -/
structure MarketMicrostructure where
  order_flow_imbalance : ℚ
  price_impact_estimate : ℚ
  liquidity_score : ℚ
  market_efficiency : ℚ
  volatility_estimate : ℚ
  deriving Repr, DecidableEq

/-- depth_analyzer.TradingSignal. -/
structure TradingSignalR where
  signal_type : String
  strength : ℚ
  confidence : ℚ
  reasoning : List String
  target_levels : List ℚ
  stop_loss : Option ℚ
  time_horizon : String
  deriving Repr, DecidableEq

/-- Total quantity of a list of levels, as a rational. -/
def totalQty (levels : List MarketDepthLevel) : ℚ :=
  ((levels.map (fun l => (l.quantity : ℚ))).sum)

/-- models.MarketDepth20Response.detect_demand_supply_zones with the
default threshold multiplier 2: index lists of the bid levels above twice
the bid-side mean quantity, and of the ask levels above twice the
ask-side mean quantity. -/
def detect_demand_supply_zones (d : MarketDepth20Response) : List Nat × List Nat :=
  let bl := d.bid_depth.levels
  let al := d.ask_depth.levels
  let avg_bid_qty : ℚ := if bl.isEmpty then 0 else totalQty bl / bl.length
  let avg_ask_qty : ℚ := if al.isEmpty then 0 else totalQty al / al.length
  (bl.enum.filterMap (fun p => if (p.2.quantity : ℚ) > avg_bid_qty * 2 then some p.1 else none),
   al.enum.filterMap (fun p => if (p.2.quantity : ℚ) > avg_ask_qty * 2 then some p.1 else none))

/-- The order-flow-imbalance computation of
depth_analyzer.analyze_market_microstructure. -/
def order_flow_imbalance (d : MarketDepth20Response) : ℚ :=
  let total_bid_qty := totalQty d.bid_depth.levels
  let total_ask_qty := totalQty d.ask_depth.levels
  let total_qty := total_bid_qty + total_ask_qty
  if total_qty > 0 then (total_bid_qty - total_ask_qty) / total_qty else 0

/-- depth_analyzer._calculate_price_impact: 0 on an empty side; otherwise
spread over the fixed-denominator top-5 average quantity (times 1000)
when that average is positive, the raw spread when it is 0, capped at 1. -/
def calculate_price_impact (bid_levels ask_levels : List MarketDepthLevel) : ℚ :=
  match bid_levels, ask_levels with
  | [], _ => 0
  | _, [] => 0
  | b0 :: _, a0 :: _ =>
    let spread := a0.price - b0.price
    let avg_top_5_qty := totalQty (bid_levels.take 5 ++ ask_levels.take 5) / 10
    let impact := if avg_top_5_qty > 0 then spread / avg_top_5_qty * 1000 else spread
    min impact 1

/-- depth_analyzer._calculate_target_levels: for BUY, the prices of the
first min(3, len(ask)) ask levels whose quantity exceeds 1.5 times the
best-ask quantity; symmetric for SELL on bids; then truncated to 3. -/
def calculate_target_levels (d : MarketDepth20Response) (signal_type : String) : List ℚ :=
  match d.bid_depth.levels, d.ask_depth.levels with
  | [], _ => []
  | _, [] => []
  | b0 :: _, a0 :: _ =>
    let bid_levels := d.bid_depth.levels
    let ask_levels := d.ask_depth.levels
    let targets :=
      if signal_type = "BUY" then
        (List.range (min 3 ask_levels.length)).filterMap (fun i =>
          (ask_levels.get? i).bind (fun li =>
            if (li.quantity : ℚ) > (a0.quantity : ℚ) * (3 / 2) then some li.price else none))
      else if signal_type = "SELL" then
        (List.range (min 3 bid_levels.length)).filterMap (fun i =>
          (bid_levels.get? i).bind (fun li =>
            if (li.quantity : ℚ) > (b0.quantity : ℚ) * (3 / 2) then some li.price else none))
      else []
    targets.take 3

/-- depth_analyzer._calculate_stop_loss: for BUY, first of bid levels 2-6
with quantity above twice the best bid quantity, minus one spread; else
best bid minus two spreads; symmetric for SELL. -/
def calculate_stop_loss (d : MarketDepth20Response) (signal_type : String) : Option ℚ :=
  match d.bid_depth.levels, d.ask_depth.levels with
  | [], _ => none
  | _, [] => none
  | b0 :: _, a0 :: _ =>
    let spread := a0.price - b0.price
    if signal_type = "BUY" then
      match ((d.bid_depth.levels.drop 1).take 5).find?
          (fun l => (l.quantity : ℚ) > (b0.quantity : ℚ) * 2) with
      | some l => some (l.price - spread)
      | none => some (b0.price - spread * 2)
    else if signal_type = "SELL" then
      match ((d.ask_depth.levels.drop 1).take 5).find?
          (fun l => (l.quantity : ℚ) > (a0.quantity : ℚ) * 2) with
      | some l => some (l.price + spread)
      | none => some (a0.price + spread * 2)
    else none

/-- depth_analyzer.generate_trading_signal, lines 129-202, taking the
already-computed microstructure record as input: candidate accumulation
from order flow and zone counts, majority aggregation with the fixed
(HOLD, 0, 50) outcome when no candidate accumulated, confidence
min(90, strength * liquidity/100) otherwise, then targets, stop loss and
time horizon. -/
def generate_trading_signal_core (d : MarketDepth20Response)
    (micro : MarketMicrostructure) : TradingSignalR :=
  let zones := detect_demand_supply_zones d
  let ofPart : List (String × ℚ) × List String :=
    if micro.order_flow_imbalance > 3 / 10 then
      ([("BUY", 70)], ["Strong buying pressure"])
    else if micro.order_flow_imbalance < -(3 / 10) then
      ([("SELL", 70)], ["Strong selling pressure"])
    else ([], [])
  let zonePart : List (String × ℚ) × List String :=
    if zones.1.length > zones.2.length + 2 then
      ([("BUY", 60)], ["Multiple demand zones detected"])
    else if zones.2.length > zones.1.length + 2 then
      ([("SELL", 60)], ["Multiple supply zones detected"])
    else ([], [])
  let liqPart : List String :=
    if micro.liquidity_score < 30 then ["Low liquidity environment"]
    else if micro.liquidity_score > 70 then ["High liquidity environment"]
    else []
  let effPart : List String :=
    if micro.market_efficiency < 50 then
      ["Market showing inefficiencies - potential arbitrage opportunities"]
    else []
  let signal_components := ofPart.1 ++ zonePart.1
  let reasoning := ofPart.2 ++ zonePart.2 ++ liqPart ++ effPart
  let agg : String × ℚ × ℚ :=
    if signal_components.isEmpty then ("HOLD", 0, 50)
    else
      let buy_signals := signal_components.filter (fun s => s.1 = "BUY")
      let sell_signals := signal_components.filter (fun s => s.1 = "SELL")
      let dir : String × ℚ :=
        if buy_signals.length > sell_signals.length then
          ("BUY", (buy_signals.map (fun s => s.2)).sum / buy_signals.length)
        else if sell_signals.length > buy_signals.length then
          ("SELL", (sell_signals.map (fun s => s.2)).sum / sell_signals.length)
        else ("HOLD", 0)
      (dir.1, dir.2, min 90 (dir.2 * (micro.liquidity_score / 100)))
  let time_horizon :=
    if micro.volatility_estimate > 4 / 5 then "SCALP"
    else if micro.volatility_estimate > 2 / 5 then "INTRADAY"
    else "SWING"
  { signal_type := agg.1
    strength := agg.2.1
    confidence := agg.2.2
    reasoning := reasoning
    target_levels := calculate_target_levels d agg.1
    stop_loss := calculate_stop_loss d agg.1
    time_horizon := time_horizon }

/-- MarketDepthAnalyzer state: the capacity (history_size, default 100)
and the single deque of snapshots shared by every instrument. -/
structure AnalyzerState where
  history_size : Nat
  depth_history : List MarketDepth20Response
  deriving Repr, DecidableEq

/-- depth_analyzer.add_depth_snapshot: deque(maxlen=history_size).append,
evicting from the front when the capacity is exceeded. -/
def add_depth_snapshot (st : AnalyzerState) (d : MarketDepth20Response) : AnalyzerState :=
  let h := st.depth_history ++ [d]
  { st with depth_history := if st.history_size < h.length then h.drop (h.length - st.history_size) else h }

/-- The last n entries of a list (deque slicing [-n:]). -/
def lastN (n : Nat) (l : List α) : List α :=
  l.drop (l.length - n)

/-- Mid price (best bid + best ask) / 2 of a snapshot, with level index 0
read as the source does. -/
def mid_price (r : MarketDepth20Response) : ℚ :=
  ((r.bid_depth.levels.headD default).price + (r.ask_depth.levels.headD default).price) / 2

/-- Consecutive absolute percentage changes, skipping steps whose
previous value is not positive. -/
def pct_changes : List ℚ → List ℚ
  | a :: b :: rest => (if a > 0 then [|b - a| / a] else []) ++ pct_changes (b :: rest)
  | _ => []

/-- depth_analyzer._estimate_volatility: 0.5 when the shared history has
fewer than 2 entries; otherwise the mean absolute mid-price change over
the last up-to-10 entries of the shared history (whatever instruments
they belong to), times 100, capped at 1; 0.5 again if no change could be
computed. The snapshot argument is unused, exactly as in the source. -/
def estimate_volatility (st : AnalyzerState) (_depth_data : MarketDepth20Response) : ℚ :=
  if st.depth_history.length < 2 then 1 / 2
  else
    let recent_snapshots := lastN 10 st.depth_history
    let price_changes := pct_changes (recent_snapshots.map mid_price)
    if ¬ price_changes.isEmpty then
      min (price_changes.sum / price_changes.length * 100) 1
    else 1 / 2

/-! ## Specification-side vocabulary -/

/-- Mean of a list of rationals, 0 for the empty list. -/
def meanQ (l : List ℚ) : ℚ :=
  if l.isEmpty then 0 else l.sum / l.length

/-- Weights of the BUY candidates of a (direction, weight) list. -/
def buyWeights (comps : List (String × ℚ)) : List ℚ :=
  (comps.filter (fun s => s.1 = "BUY")).map (fun s => s.2)

/-- Weights of the SELL candidates of a (direction, weight) list. -/
def sellWeights (comps : List (String × ℚ)) : List ℚ :=
  (comps.filter (fun s => s.1 = "SELL")).map (fun s => s.2)

/-- Majority direction by candidate count, HOLD on a tie or when empty. -/
def majority_direction (comps : List (String × ℚ)) : String :=
  if (buyWeights comps).length > (sellWeights comps).length then "BUY"
  else if (sellWeights comps).length > (buyWeights comps).length then "SELL"
  else "HOLD"

/-- Candidate (direction, weight) pairs per the specification rules:
order-flow imbalance beyond plus or minus 0.3 and zone-count imbalance
beyond 2. -/
def spec_candidates (d : MarketDepth20Response) (micro : MarketMicrostructure) :
    List (String × ℚ) :=
  let zones := detect_demand_supply_zones d
  (if micro.order_flow_imbalance > 3 / 10 then [("BUY", (70 : ℚ))] else []) ++
  (if micro.order_flow_imbalance < -(3 / 10) then [("SELL", (70 : ℚ))] else []) ++
  (if zones.1.length > zones.2.length + 2 then [("BUY", (60 : ℚ))] else []) ++
  (if zones.2.length > zones.1.length + 2 then [("SELL", (60 : ℚ))] else [])

/-- Price impact exactly as claimed (before amendment): min(1, spread over
mean-top-5 quantity times 1000), the raw spread when that mean is 0. -/
def price_impact_claim (bid_levels ask_levels : List MarketDepthLevel) : ℚ :=
  let spread := (ask_levels.headD default).price - (bid_levels.headD default).price
  let top5 := bid_levels.take 5 ++ ask_levels.take 5
  let avg := meanQ (top5.map (fun l => (l.quantity : ℚ)))
  if avg > 0 then min 1 (spread / avg * 1000) else spread

/-- Price impact per the amended claim: the 1.0 cap applies in every
branch and the divisor of the average is the fixed 10 slots. -/
def price_impact_spec (bid_levels ask_levels : List MarketDepthLevel) : ℚ :=
  let spread := (ask_levels.headD default).price - (bid_levels.headD default).price
  let avg := totalQty (bid_levels.take 5 ++ ask_levels.take 5) / 10
  min 1 (if avg > 0 then spread / avg * 1000 else spread)

/-- Descending (weakly) ordered list of rationals. -/
def sortedDescQ : List ℚ → Bool
  | a :: b :: rest => decide (b ≤ a) && sortedDescQ (b :: rest)
  | _ => true

/-- Every decoded bid side is price-descending (trivially true when no
side was decoded at all). -/
def bidSideOrderedOK : Option MarketDepth20Level → Bool
  | none => true
  | some s => sortedDescQ (s.levels.map (fun l => l.price))

/-- Well-formed assembler buffers at a given time: every buffered frame
carries the security_id it is keyed under and was captured no later than
now. -/
def frameOKb (key : String) (now : ℚ) : Option MarketDepth20Level → Bool
  | none => true
  | some f => decide (f.security_id = key) && decide (f.timestamp ≤ now)

/-- Well-formedness of the whole buffer map. -/
def buffersWF (now : ℚ) (bufs : DepthBuffers) : Bool :=
  bufs.all (fun p => frameOKb p.1 now p.2.bid && frameOKb p.1 now p.2.ask)

/-! ## Concrete fixtures -/

/-- A depth level fixture. -/
def mkLevel (p : ℚ) (q : Nat) : MarketDepthLevel :=
  { price := p, quantity := q, orders := 1 }

/-- Bid frame of instrument 1 on NSE_EQ captured at t = 0. -/
def bidFrameA : MarketDepth20Level :=
  { levels := [mkLevel 100 10], side := "BID", security_id := "1",
    exchange_segment := "NSE_EQ", timestamp := 0 }

/-- Ask frame of instrument 1 on NSE_EQ captured at t = 0.5. -/
def askFrameFresh : MarketDepth20Level :=
  { levels := [mkLevel 101 10], side := "ASK", security_id := "1",
    exchange_segment := "NSE_EQ", timestamp := 1 / 2 }

/-- Ask frame of instrument 1 on NSE_EQ captured at t = 2. -/
def askFrameLate : MarketDepth20Level :=
  { levels := [mkLevel 101 10], side := "ASK", security_id := "1",
    exchange_segment := "NSE_EQ", timestamp := 2 }

/-- Ask frame of instrument 1 carrying a different segment (NSE_FNO),
captured at t = 2. -/
def askFrameLateFNO : MarketDepth20Level :=
  { levels := [mkLevel 101 10], side := "ASK", security_id := "1",
    exchange_segment := "NSE_FNO", timestamp := 2 }

/-! ## C1 -/

/-- C1: assembler window semantics at the two claimed timings. A bid
frame at t=0 followed by the ask at t=0.5 (window 1s) emits exactly one
combined snapshot and clears the buffer — as claimed. But a bid at t=0
followed by the ask at t=2 ALSO emits a combined snapshot (and clears the
buffer): the code overwrites the buffer timestamp with the current time
immediately before comparing it against the current time, so the
staleness check never fails and the stale bid is paired, contradicting
the claim that no snapshot is emitted. -/
theorem C1_assembler_window_eval :
    runAssembler [(.bid, bidFrameA, 0), (.ask, askFrameFresh, 1 / 2)] [] =
      ([], [{ security_id := "1", exchange_segment := "NSE_EQ",
              bid_depth := bidFrameA, ask_depth := askFrameFresh, timestamp := 1 / 2 }]) ∧
    runAssembler [(.bid, bidFrameA, 0), (.ask, askFrameLate, 2)] [] =
      ([], [{ security_id := "1", exchange_segment := "NSE_EQ",
              bid_depth := bidFrameA, ask_depth := askFrameLate, timestamp := 2 }]) := by
  constructor <;> with_unfolding_all decide

/-! ## C2 -/

/-- C2 counterexample: an emitted snapshot can pair sides whose captured
timestamps are 2 seconds apart (beyond the 1-second window) and whose
exchange segments differ (the buffers are keyed by security_id only), so
the claimed invariant is violated by an emitted pairing. -/
theorem C2_counterexample :
    (process_side_frame .ask askFrameLateFNO 2
        (process_side_frame .bid bidFrameA 0 []).1).2 =
      some { security_id := "1", exchange_segment := "NSE_FNO",
             bid_depth := bidFrameA, ask_depth := askFrameLateFNO, timestamp := 2 } ∧
    bidFrameA.exchange_segment ≠ askFrameLateFNO.exchange_segment ∧
    askFrameLateFNO.timestamp - bidFrameA.timestamp > buffer_timeout := by
  refine ⟨?_, ?_, ?_⟩ <;> with_unfolding_all decide

/-- Well-formedness is preserved through lookup. -/
theorem buffersWF_find (now : ℚ) (bufs : DepthBuffers) (key : String) (e : BufferEntry)
    (hwf : buffersWF now bufs = true) (hf : findBuf key bufs = some e) :
    frameOKb key now e.bid = true ∧ frameOKb key now e.ask = true := by
  induction bufs with
  | nil => simp [findBuf] at hf
  | cons p rest ih =>
    simp only [buffersWF, List.all_cons, Bool.and_eq_true] at hwf
    simp only [findBuf] at hf
    by_cases hk : p.1 = key
    · rw [if_pos hk] at hf
      cases hf
      exact ⟨hk ▸ hwf.1.1, hk ▸ hwf.1.2⟩
    · rw [if_neg hk] at hf
      exact ih hwf.2 hf

/-- C2 (amended): both sides of every snapshot the assembler step emits
carry the emitting instrument's security_id, and the snapshot timestamp
is not earlier than either side's captured timestamp — provided the
buffered frames are well-formed for the current time and the triggering
frame was captured now. The segment-equality and window-gap clauses of
the original claim do not hold (see the counterexample): buffers are
keyed by security_id alone and the lazily-overwritten buffer timestamp
makes the freshness comparison vacuous. -/
theorem C2_amended_emission (side : BufSide) (frame : MarketDepth20Level) (now : ℚ)
    (bufs : DepthBuffers) (hwf : buffersWF now bufs = true) (hts : frame.timestamp = now)
    (r : MarketDepth20Response)
    (hr : (process_side_frame side frame now bufs).2 = some r) :
    r.security_id = frame.security_id ∧
    r.bid_depth.security_id = r.security_id ∧
    r.ask_depth.security_id = r.security_id ∧
    r.bid_depth.timestamp ≤ r.timestamp ∧
    r.ask_depth.timestamp ≤ r.timestamp := by
  have h01 : (0 : ℚ) ≤ buffer_timeout := by norm_num [buffer_timeout]
  cases side with
  | bid =>
    cases hfind : findBuf frame.security_id bufs with
    | none =>
      simp only [process_side_frame, store_depth_data, hfind, Option.getD_none] at hr
      exact absurd hr (by simp)
    | some e =>
      cases hask : e.ask with
      | none =>
        simp only [process_side_frame, store_depth_data, hfind, Option.getD_some, hask] at hr
        exact absurd hr (by simp)
      | some a =>
        have hge := buffersWF_find now bufs frame.security_id e hwf hfind
        rw [hask] at hge
        simp only [frameOKb, Bool.and_eq_true, decide_eq_true_eq] at hge
        simp only [process_side_frame, store_depth_data, hfind, Option.getD_some, hask,
          sub_self, if_pos h01, Option.some.injEq] at hr
        subst hr
        exact ⟨rfl, rfl, hge.2.1, le_of_eq hts, hge.2.2⟩
  | ask =>
    cases hfind : findBuf frame.security_id bufs with
    | none =>
      simp only [process_side_frame, store_depth_data, hfind, Option.getD_none] at hr
      exact absurd hr (by simp)
    | some e =>
      cases hbid : e.bid with
      | none =>
        simp only [process_side_frame, store_depth_data, hfind, Option.getD_some, hbid] at hr
        exact absurd hr (by simp)
      | some b =>
        have hge := buffersWF_find now bufs frame.security_id e hwf hfind
        rw [hbid] at hge
        simp only [frameOKb, Bool.and_eq_true, decide_eq_true_eq] at hge
        simp only [process_side_frame, store_depth_data, hfind, Option.getD_some, hbid,
          sub_self, if_pos h01, Option.some.injEq] at hr
        subst hr
        exact ⟨rfl, hge.1.1, rfl, hge.1.2, le_of_eq hts⟩

/-- C2 amended, instantiated: a concrete buffered bid paired by an
incoming ask. -/
theorem C2_amended_emission_witness :
    { security_id := "1", exchange_segment := "NSE_EQ",
      bid_depth := bidFrameA, ask_depth := askFrameLate,
      timestamp := (2 : ℚ) : MarketDepth20Response }.security_id = askFrameLate.security_id ∧
    ({ security_id := "1", exchange_segment := "NSE_EQ",
       bid_depth := bidFrameA, ask_depth := askFrameLate,
       timestamp := (2 : ℚ) : MarketDepth20Response }).bid_depth.security_id = "1" ∧
    ({ security_id := "1", exchange_segment := "NSE_EQ",
       bid_depth := bidFrameA, ask_depth := askFrameLate,
       timestamp := (2 : ℚ) : MarketDepth20Response }).ask_depth.security_id = "1" ∧
    bidFrameA.timestamp ≤ (2 : ℚ) ∧ askFrameLate.timestamp ≤ (2 : ℚ) := by
  have h := C2_amended_emission .ask askFrameLate 2
    [("1", { bid := some bidFrameA, ask := none, timestamp := 0 })]
    (by with_unfolding_all decide) (by with_unfolding_all decide)
    { security_id := "1", exchange_segment := "NSE_EQ",
      bid_depth := bidFrameA, ask_depth := askFrameLate, timestamp := 2 }
    (by with_unfolding_all decide)
  exact ⟨h.1, h.2.1, h.2.2.1, h.2.2.2.1, h.2.2.2.2⟩

/-! ## C3 -/

/-- Length of a Python slice. -/
theorem pySlice_length (l : List Nat) (lo hi : Nat) :
    (pySlice l lo hi).length = min (hi - lo) (l.length - lo) := by
  simp [pySlice]

/-- A big-endian unpack whose window extends past the buffer raises. -/
theorem unpackBE_error_of_short (l : List Nat) (lo hi : Nat)
    (h : l.length < hi) (h2 : lo < hi) :
    unpackBE l lo hi = .error "unpack requires a buffer" := by
  rw [unpackBE, if_neg]
  rw [pySlice_length]
  omega

/-- A bind raises whenever every continuation raises. -/
theorem bind_isError_of_cont (e : Except String α) (g : α → Except String β)
    (h : ∀ a, isError (g a) = true) : isError (e >>= g) = true := by
  cases e with
  | error s => rfl
  | ok a => exact h a

/-- The ticker parser raises on payloads shorter than its 8 fixed bytes. -/
theorem parse_ticker_short (p : List Nat) (sid seg : String) (h : p.length < 8) :
    isError (parse_ticker_packet p sid seg) = true := by
  unfold parse_ticker_packet
  apply bind_isError_of_cont
  intro _
  rw [unpackBE_error_of_short p 4 8 h (by omega)]
  rfl

/-- The quote parser raises on payloads shorter than its 42 fixed bytes. -/
theorem parse_quote_short (p : List Nat) (sid seg : String) (h : p.length < 42) :
    isError (parse_quote_packet p sid seg) = true := by
  unfold parse_quote_packet
  apply bind_isError_of_cont
  intro _
  apply bind_isError_of_cont
  intro _
  apply bind_isError_of_cont
  intro _
  apply bind_isError_of_cont
  intro _
  apply bind_isError_of_cont
  intro _
  apply bind_isError_of_cont
  intro _
  apply bind_isError_of_cont
  intro _
  apply bind_isError_of_cont
  intro _
  apply bind_isError_of_cont
  intro _
  apply bind_isError_of_cont
  intro _
  unfold unpackF32
  rw [unpackBE_error_of_short p 38 (38 + 4) (by omega) (by omega)]
  rfl

/-- Swallowed errors deliver no packet. -/
theorem on_message_none_of_isError (msg : List Nat)
    (h : isError (parse_binary_message msg) = true) :
    on_message_result msg = none := by
  unfold on_message_result
  cases hp : parse_binary_message msg with
  | ok p => rw [hp] at h; exact absurd h (by simp [isError])
  | error e => rfl

/-- C3 counterexample: an 8-byte buffer declaring a ticker (response code
2) with an empty payload makes the frame decoder raise a struct unpack
error instead of returning a no-message outcome, refuting the claim that
short payloads never raise. -/
theorem C3_counterexample :
    isError (parse_binary_message [2, 0, 8, 1, 0, 0, 0, 5]) = true := by
  with_unfolding_all decide

/-- C3 (amended): frames shorter than the 8-byte header and frames with
unknown response codes yield no message without raising; depth-side
payloads shorter than 320 bytes are dropped without raising; but ticker
and quote frames whose payloads are shorter than the required 8 and 42
fixed bytes make the decoder itself raise a struct unpack error, which
the on_message handler catches and swallows, so the single frame is
dropped without aborting the stream. -/
theorem C3_amended_short_frames (msg payload : List Nat) (sid seg : String) (now : ℚ) :
    (msg.length < 8 → parse_binary_message msg = .ok none) ∧
    (8 ≤ msg.length → ¬ (msg.headD 0 = 2 ∨ msg.headD 0 = 4 ∨ msg.headD 0 = 8) →
      parse_binary_message msg = .ok none) ∧
    (payload.length < 320 → parse_bid_depth payload sid seg now = none ∧
      parse_ask_depth payload sid seg now = none) ∧
    (8 ≤ msg.length → msg.headD 0 = 2 → msg.length < 16 →
      isError (parse_binary_message msg) = true ∧ on_message_result msg = none) ∧
    (8 ≤ msg.length → msg.headD 0 = 4 → msg.length < 50 →
      isError (parse_binary_message msg) = true ∧ on_message_result msg = none) := by
  refine ⟨?_, ?_, ?_, ?_, ?_⟩
  · intro h
    rw [parse_binary_message, if_pos h]
  · intro h hcode
    rw [parse_binary_message, if_neg (by omega)]
    rw [if_neg (fun hc => hcode (Or.inl hc)),
        if_neg (fun hc => hcode (Or.inr (Or.inl hc))),
        if_neg (fun hc => hcode (Or.inr (Or.inr hc)))]
  · intro h
    constructor
    · rw [parse_bid_depth, if_pos h]
    · rw [parse_ask_depth, if_pos h]
  · intro h hcode hshort
    have herr : isError (parse_binary_message msg) = true := by
      rw [parse_binary_message, if_neg (by omega), if_pos hcode]
      have := parse_ticker_short (msg.drop 8)
        (toString (beNat (pySlice msg 4 8)))
        (get_exchange_segment_name (msg.getD 3 0)) (by simp; omega)
      cases hp : parse_ticker_packet (msg.drop 8)
          (toString (beNat (pySlice msg 4 8)))
          (get_exchange_segment_name (msg.getD 3 0)) with
      | ok p => rw [hp] at this; exact absurd this (by simp [isError])
      | error e => rfl
    exact ⟨herr, on_message_none_of_isError msg herr⟩
  · intro h hcode hshort
    have herr : isError (parse_binary_message msg) = true := by
      rw [parse_binary_message, if_neg (by omega)]
      rw [if_neg (by omega), if_pos hcode]
      have := parse_quote_short (msg.drop 8)
        (toString (beNat (pySlice msg 4 8)))
        (get_exchange_segment_name (msg.getD 3 0)) (by simp; omega)
      cases hp : parse_quote_packet (msg.drop 8)
          (toString (beNat (pySlice msg 4 8)))
          (get_exchange_segment_name (msg.getD 3 0)) with
      | ok p => rw [hp] at this; exact absurd this (by simp [isError])
      | error e => rfl
    exact ⟨herr, on_message_none_of_isError msg herr⟩

/-- C3 amended, instantiated on concrete frames. -/
theorem C3_amended_short_frames_witness :
    parse_binary_message [9, 9, 9] = .ok none ∧
    parse_bid_depth [1, 2, 3] "1" "NSE_EQ" 0 = none ∧
    isError (parse_binary_message [4, 0, 8, 1, 0, 0, 0, 5]) = true ∧
    on_message_result [4, 0, 8, 1, 0, 0, 0, 5] = none := by
  have h1 := (C3_amended_short_frames [9, 9, 9] [] "" "" 0).1 (by decide)
  have h2 := ((C3_amended_short_frames [] [1, 2, 3] "1" "NSE_EQ" 0).2.2.1 (by decide)).1
  have h3 := (C3_amended_short_frames [4, 0, 8, 1, 0, 0, 0, 5] [] "" "" 0).2.2.2.2
    (by decide) (by decide) (by decide)
  exact ⟨h1, h2, h3.1, h3.2⟩

/-! ## C4 -/

/-- C4: with the subscription registry already holding the 50-instrument
cap, subscribing any further instrument (valid segment, connected feed)
raises the explicit capacity error. The check runs before any mutation in
subscribe_depth, so the registry that the caller holds is unchanged — the
error return carries no modified state and nothing is silently
truncated. -/
theorem C4_capacity_error (st : DMState) (security_id exchange_segment : String)
    (callback : Option Nat) (hconn : st.connected = true)
    (hseg : exchange_segment = "NSE_EQ" ∨ exchange_segment = "NSE_FNO")
    (hfull : max_subscriptions ≤ st.subscribers.length) :
    subscribe_depth st security_id exchange_segment callback =
      .error "Maximum 50 subscriptions reached" := by
  rw [subscribe_depth.eq_def, if_neg (by rw [hconn]; simp), if_neg (by simp [hseg]),
    if_pos hfull]

/-- A registry at the 50-entry cap. -/
def full50 : DMState :=
  { connected := true
    subscribers := (List.range 50).map (fun i => (toString i, [0]))
    depth_data := []
    cache_keys := []
    ws_subs := [] }

/-- C4 instantiated: the 51st subscription on a full registry errors. -/
theorem C4_capacity_error_witness :
    subscribe_depth full50 "999" "NSE_EQ" (some 7) =
      .error "Maximum 50 subscriptions reached" :=
  C4_capacity_error full50 "999" "NSE_EQ" (some 7) rfl (Or.inl rfl)
    (by simp [full50, max_subscriptions])

/-! ## C5 -/

/-- A balanced two-level snapshot: equal quantities everywhere, so no
demand or supply zone qualifies. -/
def snapBalanced : MarketDepth20Response :=
  { security_id := "1", exchange_segment := "NSE_EQ"
    bid_depth := { levels := [mkLevel 100 10, mkLevel 99 10], side := "BID",
                   security_id := "1", exchange_segment := "NSE_EQ", timestamp := 0 }
    ask_depth := { levels := [mkLevel 101 10, mkLevel 102 10], side := "ASK",
                   security_id := "1", exchange_segment := "NSE_EQ", timestamp := 0 }
    timestamp := 0 }

/-- Neutral microstructure: zero order-flow imbalance, liquidity 80. -/
def microNeutral : MarketMicrostructure :=
  { order_flow_imbalance := 0, price_impact_estimate := 0, liquidity_score := 80,
    market_efficiency := 60, volatility_estimate := 1 / 2 }

/-- C5 counterexample: with no accumulated candidate the source fixes
confidence at 50 while the claimed formula min(90, strength *
liquidityScore/100) yields 0, so the claimed confidence equation fails. -/
theorem C5_counterexample :
    (generate_trading_signal_core snapBalanced microNeutral).signal_type = "HOLD" ∧
    (generate_trading_signal_core snapBalanced microNeutral).strength = 0 ∧
    (generate_trading_signal_core snapBalanced microNeutral).confidence = 50 ∧
    min 90 ((generate_trading_signal_core snapBalanced microNeutral).strength *
      (microNeutral.liquidity_score / 100)) = 0 ∧ (50 : ℚ) ≠ 0 := by
  refine ⟨?_, ?_, ?_, ?_, ?_⟩ <;> with_unfolding_all decide

/-- C5 (amended): the emitted direction is the majority by count of the
accumulated candidates (HOLD on tie or none); strength is the mean weight
of the winning direction (0 for HOLD); confidence is min(90, strength *
liquidityScore/100) whenever at least one candidate accumulated, but a
fixed 50 when none accumulated; and an order-flow imbalance of 0.5 with
no zone imbalance yields BUY with strength 70. -/
theorem C5_amended_aggregation (d : MarketDepth20Response) (micro : MarketMicrostructure) :
    (generate_trading_signal_core d micro).signal_type =
      majority_direction (spec_candidates d micro) ∧
    (generate_trading_signal_core d micro).strength =
      (if majority_direction (spec_candidates d micro) = "BUY" then
        meanQ (buyWeights (spec_candidates d micro))
       else if majority_direction (spec_candidates d micro) = "SELL" then
        meanQ (sellWeights (spec_candidates d micro))
       else 0) ∧
    (generate_trading_signal_core d micro).confidence =
      (if spec_candidates d micro = [] then 50
       else min 90 ((generate_trading_signal_core d micro).strength *
        (micro.liquidity_score / 100))) ∧
    (micro.order_flow_imbalance = 1 / 2 →
      (detect_demand_supply_zones d).1.length ≤ (detect_demand_supply_zones d).2.length + 2 →
      (detect_demand_supply_zones d).2.length ≤ (detect_demand_supply_zones d).1.length + 2 →
      (generate_trading_signal_core d micro).signal_type = "BUY" ∧
      (generate_trading_signal_core d micro).strength = 70 ∧
      (generate_trading_signal_core d micro).confidence =
        min 90 (70 * (micro.liquidity_score / 100))) := by
  by_cases h1 : micro.order_flow_imbalance > 3 / 10
  · have h2 : ¬ micro.order_flow_imbalance < -(3 / 10) := by linarith
    by_cases h3 : (detect_demand_supply_zones d).1.length >
        (detect_demand_supply_zones d).2.length + 2
    · have h4 : ¬ (detect_demand_supply_zones d).2.length >
          (detect_demand_supply_zones d).1.length + 2 := by omega
      refine ⟨?_, ?_, ?_, ?_⟩ <;>
        simp [generate_trading_signal_core, spec_candidates, majority_direction,
          buyWeights, sellWeights, meanQ, h1, h2, h3, h4]
    · by_cases h4 : (detect_demand_supply_zones d).2.length >
          (detect_demand_supply_zones d).1.length + 2
      · refine ⟨?_, ?_, ?_, ?_⟩ <;>
          simp [generate_trading_signal_core, spec_candidates, majority_direction,
            buyWeights, sellWeights, meanQ, h1, h2, h3, h4]
      · refine ⟨?_, ?_, ?_, ?_⟩ <;>
          simp [generate_trading_signal_core, spec_candidates, majority_direction,
            buyWeights, sellWeights, meanQ, h1, h2, h3, h4]
  · by_cases h2 : micro.order_flow_imbalance < -(3 / 10)
    · have hofi : ¬ micro.order_flow_imbalance = 1 / 2 := by
        intro hh; rw [hh] at h2; norm_num at h2
      by_cases h3 : (detect_demand_supply_zones d).1.length >
          (detect_demand_supply_zones d).2.length + 2
      · have h4 : ¬ (detect_demand_supply_zones d).2.length >
            (detect_demand_supply_zones d).1.length + 2 := by omega
        refine ⟨?_, ?_, ?_, ?_⟩ <;>
          simp [generate_trading_signal_core, spec_candidates, majority_direction,
            buyWeights, sellWeights, meanQ, h1, h2, h3, h4, hofi]
      · by_cases h4 : (detect_demand_supply_zones d).2.length >
            (detect_demand_supply_zones d).1.length + 2
        · refine ⟨?_, ?_, ?_, ?_⟩ <;>
            simp [generate_trading_signal_core, spec_candidates, majority_direction,
              buyWeights, sellWeights, meanQ, h1, h2, h3, h4, hofi]
        · refine ⟨?_, ?_, ?_, ?_⟩ <;>
            simp [generate_trading_signal_core, spec_candidates, majority_direction,
              buyWeights, sellWeights, meanQ, h1, h2, h3, h4, hofi] <;>
            try (intro hh; exact hofi (by rw [hh]; norm_num))
    · have hofi : ¬ micro.order_flow_imbalance = 1 / 2 := by
        intro hh; rw [hh] at h1; norm_num at h1
      by_cases h3 : (detect_demand_supply_zones d).1.length >
          (detect_demand_supply_zones d).2.length + 2
      · have h4 : ¬ (detect_demand_supply_zones d).2.length >
            (detect_demand_supply_zones d).1.length + 2 := by omega
        refine ⟨?_, ?_, ?_, ?_⟩ <;>
          simp [generate_trading_signal_core, spec_candidates, majority_direction,
            buyWeights, sellWeights, meanQ, h1, h2, h3, h4, hofi]
      · by_cases h4 : (detect_demand_supply_zones d).2.length >
            (detect_demand_supply_zones d).1.length + 2
        · refine ⟨?_, ?_, ?_, ?_⟩ <;>
            simp [generate_trading_signal_core, spec_candidates, majority_direction,
              buyWeights, sellWeights, meanQ, h1, h2, h3, h4, hofi]
        · refine ⟨?_, ?_, ?_, ?_⟩ <;>
            simp [generate_trading_signal_core, spec_candidates, majority_direction,
              buyWeights, sellWeights, meanQ, h1, h2, h3, h4, hofi] <;>
            try (intro hh; exact hofi (by rw [hh]; norm_num))

/-- Microstructure with order-flow imbalance 0.5 and liquidity 80. -/
def microHalf : MarketMicrostructure :=
  { order_flow_imbalance := 1 / 2, price_impact_estimate := 0, liquidity_score := 80,
    market_efficiency := 60, volatility_estimate := 1 / 2 }

/-- C5 amended, instantiated: imbalance 0.5 with no zone imbalance gives
BUY with strength 70 and confidence min(90, 70 x 80/100). -/
theorem C5_amended_aggregation_witness :
    (generate_trading_signal_core snapBalanced microHalf).signal_type = "BUY" ∧
    (generate_trading_signal_core snapBalanced microHalf).strength = 70 ∧
    (generate_trading_signal_core snapBalanced microHalf).confidence =
      min 90 (70 * (microHalf.liquidity_score / 100)) :=
  (C5_amended_aggregation snapBalanced microHalf).2.2.2
    (by with_unfolding_all decide) (by with_unfolding_all decide)
    (by with_unfolding_all decide)

/-! ## C6 -/

/-- Five zero-quantity levels headed by a given price. -/
def fiveZeroLevels (p : ℚ) : List MarketDepthLevel :=
  [mkLevel p 0, mkLevel p 0, mkLevel p 0, mkLevel p 0, mkLevel p 0]

/-- C6 counterexample: with zero top-5 quantity and spread 5 the source
returns the capped value 1 while the claim demands the raw spread 5; and
on single-level sides the source divides the top-5 total by the fixed 10,
not by the number of levels, so the claimed formula value differs again. -/
theorem C6_counterexample :
    calculate_price_impact (fiveZeroLevels 1) (fiveZeroLevels 6) = 1 ∧
    price_impact_claim (fiveZeroLevels 1) (fiveZeroLevels 6) = 5 ∧
    calculate_price_impact [mkLevel 1 1] [mkLevel (1 + 1 / 100000) 1] = 1 / 20 ∧
    price_impact_claim [mkLevel 1 1] [mkLevel (1 + 1 / 100000) 1] = 1 / 100 ∧
    ((1 : ℚ) ≠ 5 ∧ (1 / 20 : ℚ) ≠ 1 / 100) := by
  refine ⟨?_, ?_, ?_, ?_, ?_, ?_⟩ <;> with_unfolding_all decide

/-- C6 (amended): for non-empty sides the price impact estimate is
min(1, x) where x is spread over the top-5 average times 1000 when that
average is positive and the raw spread otherwise, with the average being
one tenth of the combined top-5 quantity of the two sides: the 1.0 cap
applies in every branch. For sides holding at least 5 levels each (all
decoder output does) that average coincides with the claimed mean over
the combined top-5 levels. -/
theorem C6_amended_price_impact (bid_levels ask_levels : List MarketDepthLevel)
    (hb : bid_levels ≠ []) (ha : ask_levels ≠ []) :
    calculate_price_impact bid_levels ask_levels =
      price_impact_spec bid_levels ask_levels ∧
    (5 ≤ bid_levels.length → 5 ≤ ask_levels.length →
      totalQty (bid_levels.take 5 ++ ask_levels.take 5) / 10 =
        meanQ ((bid_levels.take 5 ++ ask_levels.take 5).map
          (fun l => (l.quantity : ℚ)))) := by
  constructor
  · match bid_levels, ask_levels with
    | [], _ => exact absurd rfl hb
    | _ :: _, [] => exact absurd rfl ha
    | b0 :: bs, a0 :: as_ =>
      rw [calculate_price_impact, price_impact_spec]
      simp only [List.headD_cons]
      rw [min_comm]
  · intro hb5 ha5
    have hlen : (((bid_levels.take 5 ++ ask_levels.take 5).map
        (fun l => (l.quantity : ℚ)))).length = 10 := by
      simp only [List.length_map, List.length_append, List.length_take]
      omega
    have hne : ¬ ((((bid_levels.take 5 ++ ask_levels.take 5).map
        (fun l => (l.quantity : ℚ)))).isEmpty = true) := by
      rw [List.isEmpty_iff]
      intro hnil
      rw [hnil] at hlen
      simp at hlen
    rw [meanQ, totalQty, if_neg hne, hlen]
    norm_num

/-- C6 amended, instantiated on concrete sides. -/
theorem C6_amended_price_impact_witness :
    calculate_price_impact (fiveZeroLevels 1) (fiveZeroLevels 6) =
      price_impact_spec (fiveZeroLevels 1) (fiveZeroLevels 6) ∧
    totalQty ((fiveZeroLevels 1).take 5 ++ (fiveZeroLevels 6).take 5) / 10 =
      meanQ (((fiveZeroLevels 1).take 5 ++ (fiveZeroLevels 6).take 5).map
        (fun l => (l.quantity : ℚ))) := by
  have h := C6_amended_price_impact (fiveZeroLevels 1) (fiveZeroLevels 6)
    (by with_unfolding_all decide) (by with_unfolding_all decide)
  exact ⟨h.1, h.2 (by with_unfolding_all decide) (by with_unfolding_all decide)⟩

/-! ## C7 -/

/-- A 320-byte bid payload whose first two wire prices are 1.0 then 2.0
(ascending, so NOT price-descending), quantities 5, orders 1; the
remaining 18 records are all zero. -/
def p320cex : List Nat :=
  [63, 240, 0, 0, 0, 0, 0, 0, 0, 0, 0, 5, 0, 0, 0, 1] ++
  [64, 0, 0, 0, 0, 0, 0, 0, 0, 0, 0, 5, 0, 0, 0, 1] ++
  List.replicate 288 0

/-- C7 counterexample: the decoder emits this side as-is, in wire order,
with its prices not descending — it neither validates nor restores the
claimed BID price ordering. -/
theorem C7_counterexample :
    bidSideOrderedOK (parse_bid_depth p320cex "1" "NSE_EQ" 0) = false := by
  with_unfolding_all decide

/-- C7 (amended): every side the decoder emits has exactly 20 levels with
the declared side tag, and payloads shorter than 320 bytes produce no
side at all — they are dropped entirely, not padded. Level order is the
wire order; the decoder does not enforce the price-priority ordering (see
the counterexample). -/
theorem C7_amended_side_shape (payload : List Nat) (sid seg : String) (now : ℚ) :
    ((parse_bid_depth payload sid seg now).elim True
      (fun s => s.levels.length = 20 ∧ s.side = "BID")) ∧
    ((parse_ask_depth payload sid seg now).elim True
      (fun s => s.levels.length = 20 ∧ s.side = "ASK")) ∧
    (payload.length < 320 → parse_bid_depth payload sid seg now = none ∧
      parse_ask_depth payload sid seg now = none) := by
  refine ⟨?_, ?_, ?_⟩
  · rw [parse_bid_depth]
    split
    · trivial
    · simp
  · rw [parse_ask_depth]
    split
    · trivial
    · simp
  · intro h
    rw [parse_bid_depth, if_pos h, parse_ask_depth, if_pos h]
    exact ⟨rfl, rfl⟩

/-- C7 amended, instantiated: a 319-byte payload is dropped; the
counterexample payload decodes to a 20-level BID side. -/
theorem C7_amended_side_shape_witness :
    (parse_bid_depth (List.replicate 319 0) "1" "NSE_EQ" 0 = none ∧
     parse_ask_depth (List.replicate 319 0) "1" "NSE_EQ" 0 = none) ∧
    ((parse_bid_depth p320cex "1" "NSE_EQ" 0).elim True
      (fun s => s.levels.length = 20 ∧ s.side = "BID")) :=
  ⟨(C7_amended_side_shape (List.replicate 319 0) "1" "NSE_EQ" 0).2.2 (by decide),
   (C7_amended_side_shape p320cex "1" "NSE_EQ" 0).1⟩

/-! ## C8 -/

/-- A one-level snapshot for an instrument with mid-price p. -/
def snapOf (sid : String) (p : ℚ) : MarketDepth20Response :=
  { security_id := sid, exchange_segment := "NSE_EQ"
    bid_depth := { levels := [mkLevel (p - 1) 10], side := "BID", security_id := sid,
                   exchange_segment := "NSE_EQ", timestamp := 0 }
    ask_depth := { levels := [mkLevel (p + 1) 10], side := "ASK", security_id := sid,
                   exchange_segment := "NSE_EQ", timestamp := 0 }
    timestamp := 0 }

/-- C8 counterexample: the analyzer keeps one history deque shared by all
instruments. After adding a snapshot of instrument 1 and one of
instrument 2, the up-to-10 entries consulted for volatility contain a
foreign instrument, and analyzing instrument 1's snapshot yields
volatility 1 (driven by instrument 2's mid-price move) instead of the 0.5
default that a per-instrument history (with its single entry) would have
produced. -/
theorem C8_counterexample :
    ((lastN 10 (add_depth_snapshot (add_depth_snapshot ⟨100, []⟩ (snapOf "1" 100))
        (snapOf "2" 200)).depth_history).all
      (fun s => s.security_id = "1")) = false ∧
    estimate_volatility (add_depth_snapshot (add_depth_snapshot ⟨100, []⟩ (snapOf "1" 100))
      (snapOf "2" 200)) (snapOf "1" 100) = 1 ∧
    estimate_volatility ⟨100, [snapOf "1" 100]⟩ (snapOf "1" 100) = 1 / 2 := by
  refine ⟨?_, ?_, ?_⟩ <;> with_unfolding_all decide

/-- C8 (amended): the history is a single fixed-capacity FIFO shared by
every instrument: within capacity an add appends at the tail; at capacity
it also evicts the single oldest entry; the length never exceeds the
capacity. The entries consulted for volatility are the most recent
up-to-10 of this shared history regardless of instrument (see the
counterexample). -/
theorem C8_amended_shared_fifo (st : AnalyzerState) (d : MarketDepth20Response)
    (hcap : st.depth_history.length ≤ st.history_size) :
    ((add_depth_snapshot st d).depth_history.length ≤ st.history_size) ∧
    (st.depth_history.length < st.history_size →
      (add_depth_snapshot st d).depth_history = st.depth_history ++ [d]) ∧
    (st.depth_history.length = st.history_size → 0 < st.history_size →
      (add_depth_snapshot st d).depth_history = st.depth_history.drop 1 ++ [d]) := by
  refine ⟨?_, ?_, ?_⟩
  · rw [add_depth_snapshot]
    by_cases h : st.history_size < (st.depth_history ++ [d]).length
    · rw [if_pos h]
      simp only [List.length_drop, List.length_append, List.length_singleton]
      omega
    · rw [if_neg h]
      simp only [List.length_append, List.length_singleton] at h ⊢
      omega
  · intro hlt
    have hcond : ¬ st.history_size < (st.depth_history ++ [d]).length := by
      simp only [List.length_append, List.length_singleton]
      omega
    rw [add_depth_snapshot, if_neg hcond]
  · intro heq hpos
    have hcond : st.history_size < (st.depth_history ++ [d]).length := by
      simp only [List.length_append, List.length_singleton]
      omega
    rw [add_depth_snapshot, if_pos hcond]
    have h1 : (st.depth_history ++ [d]).length - st.history_size = 1 := by
      simp only [List.length_append, List.length_singleton]
      omega
    rw [h1, List.drop_append_of_le_length (by omega)]

/-- C8 amended, instantiated: a capacity-2 history at capacity evicts its
oldest entry on the next add. -/
theorem C8_amended_shared_fifo_witness :
    (add_depth_snapshot ⟨2, [snapOf "1" 100, snapOf "2" 200]⟩
      (snapOf "3" 300)).depth_history.length ≤ 2 ∧
    (add_depth_snapshot ⟨2, [snapOf "1" 100, snapOf "2" 200]⟩
      (snapOf "3" 300)).depth_history =
      [snapOf "1" 100, snapOf "2" 200].drop 1 ++ [snapOf "3" 300] := by
  have h := C8_amended_shared_fifo ⟨2, [snapOf "1" 100, snapOf "2" 200]⟩
    (snapOf "3" 300) (by decide)
  exact ⟨h.1, h.2.2 rfl (by decide)⟩

/-! ## C9 -/

/-- The dispatch loop invokes every callback of its list, whatever each
invocation raises. -/
theorem runDispatchLoop_invokes (behav : CallbackBehavior) (cbs : List Nat) :
    (runDispatchLoop behav cbs).1 = cbs := by
  induction cbs with
  | nil => rfl
  | cons c rest ih =>
    cases hb : behav c <;> simp [runDispatchLoop, hb, ih]

/-- A raising callback's message is caught and recorded in the log. -/
theorem runDispatchLoop_logs (behav : CallbackBehavior) (cbs : List Nat)
    (c : Nat) (e : String) (hc : c ∈ cbs) (he : behav c = .error e) :
    e ∈ (runDispatchLoop behav cbs).2 := by
  induction cbs with
  | nil => cases hc
  | cons c0 rest ih =>
    rcases List.mem_cons.1 hc with h0 | hrest
    · subst h0
      rw [runDispatchLoop, he]
      exact List.mem_cons_self e _
    · cases hb : behav c0 <;> rw [runDispatchLoop, hb] <;>
        simp only [] <;>
        first
        | exact ih hrest
        | exact List.mem_cons_of_mem _ (ih hrest)

/-- C9: for an update delivered to an instrument with two or more
registered callbacks, a callback that raises is caught (its message is
logged) and every registered callback — the raising one included — is
still invoked with the same update. -/
theorem C9_callback_isolation (st : DMState) (behav : CallbackBehavior)
    (d : MarketDepth20Response) (c : Nat) (e : String)
    (hcount : 2 ≤ ((findList d.security_id st.subscribers).getD []).length)
    (hc : c ∈ (findList d.security_id st.subscribers).getD [])
    (he : behav c = .error e) :
    (on_depth_update st behav d).2.1 =
      (findList d.security_id st.subscribers).getD [] ∧
    e ∈ (on_depth_update st behav d).2.2 := by
  constructor
  · rw [on_depth_update]
    exact runDispatchLoop_invokes behav _
  · rw [on_depth_update]
    exact runDispatchLoop_logs behav _ c e hc he

/-- A manager with two callbacks registered for instrument 7. -/
def st9 : DMState :=
  { connected := true, subscribers := [("7", [0, 1])], depth_data := [],
    cache_keys := [], ws_subs := [] }

/-- Callback 0 raises, callback 1 returns normally. -/
def behav9 : CallbackBehavior :=
  fun c => if c = 0 then .error "boom" else .ok ()

/-- C9 instantiated: the raising callback 0 does not stop callback 1 from
receiving the update, and the raised message is logged. -/
theorem C9_callback_isolation_witness :
    (on_depth_update st9 behav9 (snapOf "7" 100)).2.1 = [0, 1] ∧
    "boom" ∈ (on_depth_update st9 behav9 (snapOf "7" 100)).2.2 := by
  have hfl : (findList (snapOf "7" 100).security_id st9.subscribers).getD [] = [0, 1] := by
    with_unfolding_all decide
  have h := C9_callback_isolation st9 behav9 (snapOf "7" 100) 0 "boom"
    (by rw [hfl]; decide) (by rw [hfl]; decide) (by with_unfolding_all rfl)
  rw [hfl] at h
  exact h

/-! ## C10 -/

/-- The index-0 level can never exceed 1.5 times its own quantity. -/
theorem head_never_qualifies (a0 : MarketDepthLevel) :
    ¬ ((a0.quantity : ℚ) > (a0.quantity : ℚ) * (3 / 2)) := by
  have h : (0 : ℚ) ≤ (a0.quantity : ℚ) := Nat.cast_nonneg _
  intro hgt
  nlinarith

/-- The selection loop of the target calculation picks only levels at
indices 1 and 2, in order. -/
theorem targets_select_sublist (a0 : MarketDepthLevel) (rest : List MarketDepthLevel) :
    ((List.range (min 3 (a0 :: rest).length)).filterMap (fun i =>
      ((a0 :: rest).get? i).bind (fun li =>
        if (li.quantity : ℚ) > (a0.quantity : ℚ) * (3 / 2) then some li.price else none))).Sublist
      ((((a0 :: rest).take 3).drop 1).map (fun l => l.price)) := by
  have h0 := head_never_qualifies a0
  match rest with
  | [] =>
    have hr : List.range (min 3 ([a0] : List MarketDepthLevel).length) = [0] := by
      simp only [List.length_cons, List.length_nil]
      decide
    rw [hr]
    simp only [List.filterMap_cons, List.get?, Option.some_bind, if_neg h0,
      List.filterMap_nil]
    simp
  | [a1] =>
    have hr : List.range (min 3 ([a0, a1] : List MarketDepthLevel).length) = [0, 1] := by
      simp only [List.length_cons, List.length_nil]
      decide
    rw [hr]
    simp only [List.filterMap_cons, List.get?, Option.some_bind, if_neg h0,
      List.filterMap_nil]
    split_ifs <;> simp
  | a1 :: a2 :: rs =>
    have hr : List.range (min 3 (a0 :: a1 :: a2 :: rs).length) = [0, 1, 2] := by
      have hm : min 3 (a0 :: a1 :: a2 :: rs).length = 3 := by
        simp only [List.length_cons]
        omega
      rw [hm]
      decide
    rw [hr]
    simp only [List.filterMap_cons, List.get?, Option.some_bind, if_neg h0,
      List.filterMap_nil]
    split_ifs <;> simp

/-- C10: the BUY target list is a sublist of the prices of ask levels at
indices 1 and 2 (the best-ask level at index 0 never qualifies, since a
quantity never exceeds 1.5 times itself), hence holds at most 2 prices,
all drawn from the first three ask levels; symmetrically SELL targets
come from bid levels 1 and 2. A 3-price target list is impossible. -/
theorem C10_target_levels (d : MarketDepth20Response) :
    ((calculate_target_levels d "BUY").Sublist
      (((d.ask_depth.levels.take 3).drop 1).map (fun l => l.price)) ∧
     (calculate_target_levels d "BUY").length ≤ 2) ∧
    ((calculate_target_levels d "SELL").Sublist
      (((d.bid_depth.levels.take 3).drop 1).map (fun l => l.price)) ∧
     (calculate_target_levels d "SELL").length ≤ 2) := by
  rcases hb : d.bid_depth.levels with _ | ⟨b0, bs⟩
  · refine ⟨⟨?_, ?_⟩, ⟨?_, ?_⟩⟩ <;> simp [calculate_target_levels, hb]
  · rcases ha : d.ask_depth.levels with _ | ⟨a0, as_⟩
    · refine ⟨⟨?_, ?_⟩, ⟨?_, ?_⟩⟩ <;> simp [calculate_target_levels, hb, ha]
    · have hsubA := targets_select_sublist a0 as_
      have hsubB := targets_select_sublist b0 bs
      have hlenSupA : ((((a0 :: as_).take 3).drop 1).map
          (fun l => l.price)).length ≤ 2 := by
        simp only [List.length_map, List.length_drop, List.length_take,
          List.length_cons]
        omega
      have hlenSupB : ((((b0 :: bs).take 3).drop 1).map
          (fun l => l.price)).length ≤ 2 := by
        simp only [List.length_map, List.length_drop, List.length_take,
          List.length_cons]
        omega
      have hbuy : calculate_target_levels d "BUY" =
          ((List.range (min 3 (a0 :: as_).length)).filterMap (fun i =>
            ((a0 :: as_).get? i).bind (fun li =>
              if (li.quantity : ℚ) > (a0.quantity : ℚ) * (3 / 2) then some li.price
              else none))).take 3 := by
        rw [calculate_target_levels.eq_def, hb, ha]
        simp
      have hsell : calculate_target_levels d "SELL" =
          ((List.range (min 3 (b0 :: bs).length)).filterMap (fun i =>
            ((b0 :: bs).get? i).bind (fun li =>
              if (li.quantity : ℚ) > (b0.quantity : ℚ) * (3 / 2) then some li.price
              else none))).take 3 := by
        rw [calculate_target_levels.eq_def, hb, ha]
        simp
      refine ⟨⟨?_, ?_⟩, ⟨?_, ?_⟩⟩
      · rw [hbuy]
        exact (List.take_sublist 3 _).trans hsubA
      · rw [hbuy]
        have := ((List.take_sublist 3 _).trans hsubA).length_le
        omega
      · rw [hsell]
        exact (List.take_sublist 3 _).trans hsubB
      · rw [hsell]
        have := ((List.take_sublist 3 _).trans hsubB).length_le
        omega

end DhanTrader
